import Mathlib

/-!
# Verification of the per-frame simulation core of the car/skybox scene

Shallow embedding of the simulation layer of
`src/cubemaps_environment_mapping.cpp`: the AABB collision test
`checkCollision` (lines 61-67) and the per-frame vehicle/camera update in
`main` (lines 249-301).  Float arithmetic is modelled exactly over `ℚ`.

The only transcendental ingredient of the source is
`sin(glm::radians(yaw))` / `cos(glm::radians(yaw))`, used solely to build
the forward direction vector.  The development abstracts that pair as a
parameter `trig : ℚ → ℚ × ℚ` (intended meaning:
`trig yaw = (sin (yaw * π / 180), cos (yaw * π / 180))`); every theorem
below holds for an arbitrary `trig`, since no verified property depends on
a trigonometric identity.  This keeps all definitions computable; concrete
frames are evaluated by unfolding with norm_num.
-/

/-- Three-component vector over exact rationals, modelling `glm::vec3`. -/
structure Vec3 where
  x : ℚ
  y : ℚ
  z : ℚ
deriving DecidableEq, Repr

/-- Componentwise vector addition. -/
def Vec3.add (a b : Vec3) : Vec3 := ⟨a.x + b.x, a.y + b.y, a.z + b.z⟩

/-- Componentwise vector subtraction. -/
def Vec3.sub (a b : Vec3) : Vec3 := ⟨a.x - b.x, a.y - b.y, a.z - b.z⟩

/-- Vector scaled by a scalar on the right, modelling `v * c`. -/
def Vec3.scale (a : Vec3) (c : ℚ) : Vec3 := ⟨a.x * c, a.y * c, a.z * c⟩

/-- `glm::mix(x, y, a) = x*(1-a) + y*a`, componentwise. -/
def mixVec (a b : Vec3) (t : ℚ) : Vec3 :=
  Vec3.add (Vec3.scale a (1 - t)) (Vec3.scale b t)

/-- `glm::clamp(x, lo, hi) = min(max(x, lo), hi)` on scalars. -/
def clampQ (x lo hi : ℚ) : ℚ := min (max x lo) hi

/-- Physics constant `MAX_SPEED` (line 45 of the source). -/
def MAX_SPEED : ℚ := 12

/-- Physics constant `ACCELERATION` (line 46). -/
def ACCELERATION : ℚ := 20

/-- Physics constant `BRAKE` (line 47). -/
def BRAKE : ℚ := 30

/-- Physics constant `FRICTION` (line 48). -/
def FRICTION : ℚ := 6

/-- Physics constant `TURN_SPEED`, degrees per second (line 49). -/
def TURN_SPEED : ℚ := 90

/-- Camera smoothing constant `cameraSmoothSpeed` (line 30). -/
def cameraSmoothSpeed : ℚ := 6

/-- Car bounding-box size `carSize = (1.5, 1.0, 3.0)` (line 38). -/
def carSize : Vec3 := ⟨3/2, 1, 3⟩

/-- Wall bounding-box center `wallPos = (0, 2, 20)` (line 41). -/
def wallPos : Vec3 := ⟨0, 2, 20⟩

/-- Wall bounding-box size `wallSize = (4, 4, 0.5)` (line 42). -/
def wallSize : Vec3 := ⟨4, 4, 1/2⟩

/-- Axis-aligned bounding-box overlap test, translated from
`checkCollision` (source lines 61-67): strict inequality
`|centerA - centerB| * 2 < sizeA + sizeB` on each of the three axes. -/
def checkCollision (posA sizeA posB sizeB : Vec3) : Bool :=
  decide (|posA.x - posB.x| * 2 < sizeA.x + sizeB.x) &&
  decide (|posA.y - posB.y| * 2 < sizeA.y + sizeB.y) &&
  decide (|posA.z - posB.z| * 2 < sizeA.z + sizeB.z)

/-- Snapshot of the four driving keys (`keys[GLFW_KEY_W/S/A/D]`),
sampled once per frame (source lines 250-258). -/
structure InputSnapshot where
  keyW : Bool
  keyS : Bool
  keyA : Bool
  keyD : Bool
deriving DecidableEq, Repr

/-- Accelerator input: starts at 0, `+1` for W, `-1` for S
(source lines 251-253). -/
def accelInput (inp : InputSnapshot) : ℚ :=
  (if inp.keyW then (1 : ℚ) else 0) + (if inp.keyS then (-1 : ℚ) else 0)

/-- Steering input: starts at 0, `+1` for A, `-1` for D
(source lines 256-258). -/
def steerInput (inp : InputSnapshot) : ℚ :=
  (if inp.keyA then (1 : ℚ) else 0) + (if inp.keyD then (-1 : ℚ) else 0)

/-- The accelerate / brake / friction regime selection
(source lines 261-269). -/
def speedRegime (speed a dt : ℚ) : ℚ :=
  if 0 < a then speed + ACCELERATION * a * dt
  else if a < 0 then speed + -BRAKE * (-a) * dt
  else if 0 < speed then speed - FRICTION * dt
  else if speed < 0 then speed + FRICTION * dt
  else speed

/-- Snap-to-zero clamp: `if (fabs(carSpeed) < 0.01f) carSpeed = 0`
(source line 271). -/
def snapSmall (s : ℚ) : ℚ := if |s| < 1/100 then 0 else s

/-- Top clamp: `if (carSpeed > MAX_SPEED) carSpeed = MAX_SPEED`
(source line 273). -/
def clampTop (s : ℚ) : ℚ := if MAX_SPEED < s then MAX_SPEED else s

/-- Bottom clamp: `if (carSpeed < -MAX_SPEED * 0.5f) ...` (source
line 274, the slower-reverse clamp). -/
def clampBottom (s : ℚ) : ℚ :=
  if s < -MAX_SPEED * (1/2) then -MAX_SPEED * (1/2) else s

/-- Complete per-frame speed update: regime, snap-to-zero, then the two
range clamps, in source order (lines 261-274). -/
def updateSpeed (speed a dt : ℚ) : ℚ :=
  clampBottom (clampTop (snapSmall (speedRegime speed a dt)))

/-- Steering sign factor `carSpeed >= 0 ? 1.0f : -1.0f` (line 277),
evaluated on the already-updated speed. -/
def turnSign (speed : ℚ) : ℚ := if 0 ≤ speed then 1 else -1

/-- Heading update `carYaw += steerInput * turnAmount` with
`turnAmount = TURN_SPEED * sign * deltaTime` (source lines 277-278). -/
def updateYaw (yaw steer speedNew dt : ℚ) : ℚ :=
  yaw + steer * (TURN_SPEED * turnSign speedNew * dt)

/-- Forward direction `(sin(radians(yaw)), 0, cos(radians(yaw)))`
(source line 281), with the sine/cosine pair supplied by `trig`. -/
def forwardVec (trig : ℚ → ℚ × ℚ) (yaw : ℚ) : Vec3 :=
  ⟨(trig yaw).1, 0, (trig yaw).2⟩

/-- Mutable state of the simulation core: car position, heading
(degrees), signed speed, and smoothed camera position
(source lines 29-35). -/
structure CarState where
  carPos : Vec3
  carYaw : ℚ
  carSpeed : ℚ
  cameraPos : Vec3
deriving DecidableEq, Repr

/-- Speed after the per-frame speed update, before collision
resolution (source lines 261-274). -/
def frameSpeedPre (s : CarState) (inp : InputSnapshot) (dt : ℚ) : ℚ :=
  updateSpeed s.carSpeed (accelInput inp) dt

/-- Heading after the per-frame heading update (source lines 277-278). -/
def frameYaw (s : CarState) (inp : InputSnapshot) (dt : ℚ) : ℚ :=
  updateYaw s.carYaw (steerInput inp) (frameSpeedPre s inp dt) dt

/-- Forward vector of the frame, from the updated heading (line 281). -/
def frameForward (trig : ℚ → ℚ × ℚ) (s : CarState) (inp : InputSnapshot)
    (dt : ℚ) : Vec3 :=
  forwardVec trig (frameYaw s inp dt)

/-- Tentative next position
`nextPos = carPos + forward * carSpeed * deltaTime` (line 283). -/
def frameTentative (trig : ℚ → ℚ × ℚ) (s : CarState) (inp : InputSnapshot)
    (dt : ℚ) : Vec3 :=
  Vec3.add s.carPos (Vec3.scale (frameForward trig s inp dt) (frameSpeedPre s inp dt * dt))

/-- The frame's collision query
`checkCollision(nextPos, carSize, wallPos, wallSize)` (line 286). -/
def frameHit (trig : ℚ → ℚ × ℚ) (s : CarState) (inp : InputSnapshot)
    (dt : ℚ) : Bool :=
  checkCollision (frameTentative trig s inp dt) carSize wallPos wallSize

/-- Desired chase-camera position
`carPos - forward * 8 + (0, 3, 0)` (source line 298). -/
def desiredCameraPos (pos fwd : Vec3) : Vec3 :=
  Vec3.add (Vec3.sub pos (Vec3.scale fwd 8)) ⟨0, 3, 0⟩

/-- One whole frame of the simulation core (source lines 249-301):
speed update, heading update, tentative move, collision veto
(position kept and speed zeroed on overlap, move committed otherwise),
then the clamped camera lerp.  Total, and division-free apart from the
fixed rational constants. -/
def frame (trig : ℚ → ℚ × ℚ) (s : CarState) (inp : InputSnapshot)
    (dt : ℚ) : CarState :=
  { carPos := if frameHit trig s inp dt then s.carPos else frameTentative trig s inp dt
    carYaw := frameYaw s inp dt
    carSpeed := if frameHit trig s inp dt then 0 else frameSpeedPre s inp dt
    cameraPos :=
      mixVec s.cameraPos
        (desiredCameraPos
          (if frameHit trig s inp dt then s.carPos else frameTentative trig s inp dt)
          (frameForward trig s inp dt))
        (clampQ (cameraSmoothSpeed * dt) 0 1) }

/-- Iterate `frame` over a list of per-frame delta times with a fixed
input snapshot. -/
def runFrames (trig : ℚ → ℚ × ℚ) (s : CarState) (inp : InputSnapshot) :
    List ℚ → CarState
  | [] => s
  | dt :: rest => runFrames trig (frame trig s inp dt) inp rest

/-- Every frame of the run has a collision-free tentative position. -/
def collisionFreeB (trig : ℚ → ℚ × ℚ) (s : CarState) (inp : InputSnapshot) :
    List ℚ → Bool
  | [] => true
  | dt :: rest => !frameHit trig s inp dt && collisionFreeB trig (frame trig s inp dt) inp rest

/-- A concrete trig table, exact at heading 0 (sin 0 = 0, cos 0 = 1);
used only to instantiate theorems at concrete states. -/
def trig0 : ℚ → ℚ × ℚ := fun _ => (0, 1)

/-- Initial car/camera state of the source (lines 29-35): car at the
origin with heading 0 and speed 0, camera at `(0, 3, 8)`. -/
def initState : CarState :=
  { carPos := ⟨0, 0, 0⟩, carYaw := 0, carSpeed := 0, cameraPos := ⟨0, 3, 8⟩ }

/-- No keys pressed. -/
def inpNone : InputSnapshot := ⟨false, false, false, false⟩

/-- Only the forward key W pressed. -/
def inpW : InputSnapshot := ⟨true, false, false, false⟩

/-- Only the reverse key S pressed. -/
def inpS : InputSnapshot := ⟨false, true, false, false⟩

/-- Only the left-steer key A pressed. -/
def inpA : InputSnapshot := ⟨false, false, true, false⟩

/-- A state with the car centered inside the wall (so that any frame
with zero displacement is rejected by the collision check). -/
def wallState : CarState :=
  { carPos := ⟨0, 2, 20⟩, carYaw := 0, carSpeed := 0, cameraPos := ⟨0, 3, 8⟩ }

/-! ## Helper lemmas -/

/-- `glm::mix` at interpolation factor 1 lands exactly on the target. -/
theorem mixVec_one (a b : Vec3) : mixVec a b 1 = b := by
  cases a; cases b; simp [mixVec, Vec3.add, Vec3.scale]

/-- `glm::mix` at interpolation factor 0 keeps the start point. -/
theorem mixVec_zero (a b : Vec3) : mixVec a b 0 = a := by
  cases a; cases b; simp [mixVec, Vec3.add, Vec3.scale]

/-- The two range clamps confine any speed to the interval
`[-MAX_SPEED/2, MAX_SPEED]`. -/
theorem clampBottom_clampTop_range (y : ℚ) :
    -MAX_SPEED * (1/2) ≤ clampBottom (clampTop y) ∧
      clampBottom (clampTop y) ≤ MAX_SPEED := by
  simp only [clampBottom, clampTop, MAX_SPEED]
  constructor <;> split_ifs <;> linarith

/-- The whole speed update stays in `[-MAX_SPEED/2, MAX_SPEED]`. -/
theorem updateSpeed_range (sp a dt : ℚ) :
    -MAX_SPEED * (1/2) ≤ updateSpeed sp a dt ∧ updateSpeed sp a dt ≤ MAX_SPEED :=
  clampBottom_clampTop_range _

/-- With reverse input `-1` and enough braking to cross the reverse cap,
the speed update lands exactly on `-MAX_SPEED/2`. -/
theorem updateSpeed_reverse_floor (sp dt : ℚ)
    (h : sp - BRAKE * dt ≤ -MAX_SPEED * (1/2)) :
    updateSpeed sp (-1) dt = -MAX_SPEED * (1/2) := by
  have hb : BRAKE = (30 : ℚ) := rfl
  have hm : MAX_SPEED = (12 : ℚ) := rfl
  rw [hb, hm] at h
  have hs1 : speedRegime sp (-1) dt = sp - 30 * dt := by
    simp only [speedRegime]
    rw [if_neg (by norm_num), if_pos (by norm_num)]
    rw [hb]; ring
  have h6 : sp - 30 * dt ≤ -6 := by linarith
  rw [updateSpeed, hs1]
  rw [snapSmall, if_neg (by rw [abs_of_nonpos (by linarith)]; intro hc; linarith)]
  rw [clampTop, if_neg (by rw [hm]; intro hc; linarith)]
  rw [clampBottom, hm]
  rcases lt_or_eq_of_le h6 with hlt | heq
  · rw [if_pos (by linarith)]
  · rw [if_neg (by rw [heq]; norm_num), heq]; norm_num

/-- One forward-input speed step maps `min(MAX_SPEED, ACCELERATION*T)` to
`min(MAX_SPEED, ACCELERATION*(T+dt))`, provided the frame is long enough
for the increment to clear the snap-to-zero threshold. -/
theorem updateSpeed_forward_step (T dt : ℚ) (hT : 0 ≤ T)
    (hdt : (1/2000 : ℚ) ≤ dt) :
    updateSpeed (min MAX_SPEED (ACCELERATION * T)) 1 dt
      = min MAX_SPEED (ACCELERATION * (T + dt)) := by
  have hm : MAX_SPEED = (12 : ℚ) := rfl
  have ha : ACCELERATION = (20 : ℚ) := rfl
  rw [hm, ha]
  have hs1 : speedRegime (min 12 (20 * T)) 1 dt = min 12 (20 * T) + 20 * dt := by
    simp only [speedRegime]
    rw [if_pos (by norm_num), ha]; ring
  rw [updateSpeed, hs1]
  rcases le_total (12 : ℚ) (20 * T) with h | h
  · rw [min_eq_left h]
    rw [snapSmall, if_neg (by rw [abs_of_nonneg (by linarith)]; intro hc; linarith)]
    rw [clampTop, hm, if_pos (by linarith)]
    rw [clampBottom, hm, if_neg (by norm_num)]
    rw [min_eq_left (by linarith)]
  · rw [min_eq_right h]
    have hpos : (1/100 : ℚ) ≤ 20 * T + 20 * dt := by linarith
    rw [snapSmall, if_neg (by rw [abs_of_nonneg (by linarith)]; intro hc; linarith)]
    rcases lt_or_le (12 : ℚ) (20 * T + 20 * dt) with h2 | h2
    · rw [clampTop, hm, if_pos h2]
      rw [clampBottom, hm, if_neg (by norm_num)]
      rw [min_eq_left (by linarith)]
    · rw [clampTop, hm, if_neg (by intro hc; linarith)]
      rw [clampBottom, hm, if_neg (by intro hc; linarith)]
      rw [min_eq_right (by linarith)]
      ring

example : frameHit trig0 wallState inpNone 0 = true := by
  norm_num [frameHit, frameTentative, frameForward, frameYaw, frameSpeedPre,
    updateSpeed, speedRegime, snapSmall, clampTop, clampBottom, updateYaw,
    turnSign, forwardVec, trig0, accelInput, steerInput, checkCollision,
    Vec3.add, Vec3.scale, wallState, inpNone, carSize, wallPos, wallSize,
    MAX_SPEED, ACCELERATION, BRAKE, FRICTION, TURN_SPEED]
example : frameHit trig0 initState inpW (1/2) = false := by
  norm_num [frameHit, frameTentative, frameForward, frameYaw, frameSpeedPre,
    updateSpeed, speedRegime, snapSmall, clampTop, clampBottom, updateYaw,
    turnSign, forwardVec, trig0, accelInput, steerInput, checkCollision,
    Vec3.add, Vec3.scale, initState, inpW, carSize, wallPos, wallSize,
    MAX_SPEED, ACCELERATION, BRAKE, FRICTION, TURN_SPEED]
example : (frame trig0 initState inpW (1/2)).carSpeed = 10 := by
  norm_num [frame, frameHit, frameTentative, frameForward, frameYaw, frameSpeedPre,
    updateSpeed, speedRegime, snapSmall, clampTop, clampBottom, updateYaw,
    turnSign, forwardVec, trig0, accelInput, steerInput, checkCollision,
    Vec3.add, Vec3.scale, initState, inpW, carSize, wallPos, wallSize,
    MAX_SPEED, ACCELERATION, BRAKE, FRICTION, TURN_SPEED]
example : updateSpeed (1/20) 0 (1/60) = -(1/20) := by
  norm_num [updateSpeed, speedRegime, snapSmall, clampTop, clampBottom,
    MAX_SPEED, FRICTION, abs]

/-! ## Claim theorems -/

/-- Claim C3: checkCollision returns true iff the strict inequality
|posA - posB| * 2 < sizeA + sizeB holds on all three axes simultaneously;
in particular boxes exactly touching on one axis (equality there) are
reported as not overlapping. -/
theorem checkCollision_strict_iff (pA sA pB sB : Vec3) :
    (checkCollision pA sA pB sB = true ↔
      |pA.x - pB.x| * 2 < sA.x + sB.x ∧ |pA.y - pB.y| * 2 < sA.y + sB.y ∧
        |pA.z - pB.z| * 2 < sA.z + sB.z) ∧
    (|pA.x - pB.x| * 2 = sA.x + sB.x → checkCollision pA sA pB sB = false) := by
  constructor
  · simp [checkCollision, and_assoc]
  · intro h
    simp [checkCollision, h]

/-- Witness for C3: unit-offset boxes of size 2 touching exactly on the
x axis are reported as not overlapping. -/
theorem checkCollision_strict_iff_witness :
    checkCollision ⟨2, 0, 0⟩ ⟨2, 2, 2⟩ ⟨0, 0, 0⟩ ⟨2, 2, 2⟩ = false :=
  (checkCollision_strict_iff ⟨2, 0, 0⟩ ⟨2, 2, 2⟩ ⟨0, 0, 0⟩ ⟨2, 2, 2⟩).2
    (by norm_num)

/-- Claim C7: a box tested against itself overlaps iff all of its extent
components are non-zero (extents here are physical sizes, so nonnegative
by the data model). -/
theorem checkCollision_self_iff (p s : Vec3)
    (hx : 0 ≤ s.x) (hy : 0 ≤ s.y) (hz : 0 ≤ s.z) :
    (checkCollision p s p s = true ↔ (s.x ≠ 0 ∧ s.y ≠ 0 ∧ s.z ≠ 0)) := by
  have hax : (0 : ℚ) < s.x + s.x ↔ s.x ≠ 0 := by
    constructor
    · intro h h0; rw [h0] at h; norm_num at h
    · intro h; have := lt_of_le_of_ne hx (Ne.symm h); linarith
  have hay : (0 : ℚ) < s.y + s.y ↔ s.y ≠ 0 := by
    constructor
    · intro h h0; rw [h0] at h; norm_num at h
    · intro h; have := lt_of_le_of_ne hy (Ne.symm h); linarith
  have haz : (0 : ℚ) < s.z + s.z ↔ s.z ≠ 0 := by
    constructor
    · intro h h0; rw [h0] at h; norm_num at h
    · intro h; have := lt_of_le_of_ne hz (Ne.symm h); linarith
  simp [checkCollision, and_assoc, sub_self, abs_zero, hax, hay, haz]

/-- Witness for C7: the car's own box, with its nonzero extents, overlaps
itself. -/
theorem checkCollision_self_iff_witness :
    checkCollision ⟨0, 0, 0⟩ carSize ⟨0, 0, 0⟩ carSize = true :=
  (checkCollision_self_iff ⟨0, 0, 0⟩ carSize (by norm_num [carSize])
      (by norm_num [carSize]) (by norm_num [carSize])).2
    ⟨by norm_num [carSize], by norm_num [carSize], by norm_num [carSize]⟩

/-- Claim C2 (evaluation): the coasting/friction update does overshoot
zero.  At pre-speed 0.05 (> 0), no accelerator input and deltaTime 1/60,
the updated speed is exactly -0.05: the sign is reversed, and the result
escapes the 0.01 snap-to-zero clamp. -/
theorem friction_reverses_sign_at_small_speed :
    (0 : ℚ) < 1/20 ∧ (0 : ℚ) < 1/60 ∧
      updateSpeed (1/20) 0 (1/60) = -(1/20) := by
  refine ⟨by norm_num, by norm_num, ?_⟩
  norm_num [updateSpeed, speedRegime, snapSmall, clampTop, clampBottom,
    MAX_SPEED, FRICTION, abs]

/-- Claim C1: if the vehicle box centered at the tentative next position
overlaps the wall box, the frame keeps the position and zeroes the speed
regardless of the incoming speed; otherwise the frame commits exactly the
tentative position. -/
theorem collision_veto_or_commit (trig : ℚ → ℚ × ℚ) (s : CarState)
    (inp : InputSnapshot) (dt : ℚ) :
    (frameHit trig s inp dt = true →
      (frame trig s inp dt).carPos = s.carPos ∧
        (frame trig s inp dt).carSpeed = 0) ∧
    (frameHit trig s inp dt = false →
      (frame trig s inp dt).carPos = frameTentative trig s inp dt) := by
  constructor <;> intro h <;> simp [frame, h]

/-- Witness for C1: the car sitting inside the wall with a zero-length
move is rejected: position kept, speed zeroed. -/
theorem collision_veto_or_commit_witness :
    (frame trig0 wallState inpNone 0).carPos = wallState.carPos ∧
      (frame trig0 wallState inpNone 0).carSpeed = 0 :=
  (collision_veto_or_commit trig0 wallState inpNone 0).1
    (by norm_num [frameHit, frameTentative, frameForward, frameYaw, frameSpeedPre,
      updateSpeed, speedRegime, snapSmall, clampTop, clampBottom, updateYaw,
      turnSign, forwardVec, trig0, accelInput, steerInput, checkCollision,
      Vec3.add, Vec3.scale, wallState, inpNone, carSize, wallPos, wallSize,
      MAX_SPEED, ACCELERATION, BRAKE, FRICTION, TURN_SPEED])

/-- Claim C5: every frame leaves the speed inside
[-MAX_SPEED/2, MAX_SPEED] (the collision reset to 0 included), and under
reverse input whose braking step crosses the reverse cap the speed lands
exactly on -MAX_SPEED/2. -/
theorem frame_speed_bounded_and_reverse_floor (trig : ℚ → ℚ × ℚ)
    (s : CarState) (inp : InputSnapshot) (dt : ℚ) :
    (-MAX_SPEED * (1/2) ≤ (frame trig s inp dt).carSpeed ∧
      (frame trig s inp dt).carSpeed ≤ MAX_SPEED) ∧
    (inp.keyW = false → inp.keyS = true →
      s.carSpeed - BRAKE * dt ≤ -MAX_SPEED * (1/2) →
      frameHit trig s inp dt = false →
      (frame trig s inp dt).carSpeed = -MAX_SPEED * (1/2)) := by
  constructor
  · by_cases h : frameHit trig s inp dt = true
    · simp [frame, h, MAX_SPEED]
    · rw [Bool.not_eq_true] at h
      simp only [frame, h, Bool.false_eq_true, if_false]
      exact updateSpeed_range _ _ _
  · intro hW hS hle hhit
    have hacc : accelInput inp = -1 := by simp [accelInput, hW, hS]
    simp only [frame, hhit, Bool.false_eq_true, if_false, frameSpeedPre, hacc]
    exact updateSpeed_reverse_floor _ _ hle

/-- Witness for C5: braking from standstill for one full second in open
space floors the speed at exactly -6 = -MAX_SPEED/2. -/
theorem frame_speed_bounded_and_reverse_floor_witness :
    (frame trig0 initState inpS 1).carSpeed = -MAX_SPEED * (1/2) :=
  (frame_speed_bounded_and_reverse_floor trig0 initState inpS 1).2
    rfl rfl
    (by norm_num [initState, BRAKE, MAX_SPEED])
    (by norm_num [frameHit, frameTentative, frameForward, frameYaw, frameSpeedPre,
      updateSpeed, speedRegime, snapSmall, clampTop, clampBottom, updateYaw,
      turnSign, forwardVec, trig0, accelInput, steerInput, checkCollision,
      Vec3.add, Vec3.scale, initState, inpS, carSize, wallPos, wallSize,
      MAX_SPEED, ACCELERATION, BRAKE, FRICTION, TURN_SPEED, abs])

/-- Claim C6: each frame the camera position becomes
lerp(cameraPos, desired, clamp(SMOOTH_SPEED*dt, 0, 1)) with
desired = vehicle position - forward * 8 + (0,3,0); the factor never
exceeds 1, and once SMOOTH_SPEED*dt >= 1 the camera lands exactly on the
desired position. -/
theorem camera_lerp_clamped (trig : ℚ → ℚ × ℚ) (s : CarState)
    (inp : InputSnapshot) (dt : ℚ) :
    (frame trig s inp dt).cameraPos =
      mixVec s.cameraPos
        (desiredCameraPos (frame trig s inp dt).carPos
          (frameForward trig s inp dt))
        (clampQ (cameraSmoothSpeed * dt) 0 1) ∧
    clampQ (cameraSmoothSpeed * dt) 0 1 ≤ 1 ∧
    (1 ≤ cameraSmoothSpeed * dt →
      (frame trig s inp dt).cameraPos =
        desiredCameraPos (frame trig s inp dt).carPos
          (frameForward trig s inp dt)) := by
  have h1 : (frame trig s inp dt).cameraPos =
      mixVec s.cameraPos
        (desiredCameraPos (frame trig s inp dt).carPos
          (frameForward trig s inp dt))
        (clampQ (cameraSmoothSpeed * dt) 0 1) := by
    simp [frame]
  refine ⟨h1, min_le_right _ _, ?_⟩
  intro h
  have hc : clampQ (cameraSmoothSpeed * dt) 0 1 = 1 := by
    rw [clampQ, max_eq_left (le_trans zero_le_one h), min_eq_right h]
  rw [h1, hc, mixVec_one]

/-- Witness for C6: with dt = 1 the factor 6*1 exceeds 1, so the camera
coincides exactly with the desired follow position. -/
theorem camera_lerp_clamped_witness :
    (frame trig0 initState inpNone 1).cameraPos =
      desiredCameraPos (frame trig0 initState inpNone 1).carPos
        (frameForward trig0 initState inpNone 1) :=
  (camera_lerp_clamped trig0 initState inpNone 1).2.2
    (by norm_num [cameraSmoothSpeed])

/-- Claim C8: a frame with deltaTime = 0 moves nothing, from any state:
position, heading and camera position are exactly unchanged, and the
update is a total function (no division occurs anywhere in it). -/
theorem zero_dt_frame_freezes (trig : ℚ → ℚ × ℚ) (s : CarState)
    (inp : InputSnapshot) :
    (frame trig s inp 0).carPos = s.carPos ∧
    (frame trig s inp 0).carYaw = s.carYaw ∧
    (frame trig s inp 0).cameraPos = s.cameraPos := by
  have hyaw : frameYaw s inp 0 = s.carYaw := by
    simp [frameYaw, updateYaw]
  have htent : frameTentative trig s inp 0 = s.carPos := by
    simp [frameTentative, Vec3.add, Vec3.scale]
  have hpos : (frame trig s inp 0).carPos = s.carPos := by
    simp [frame, htent]
  have hc : clampQ (cameraSmoothSpeed * 0) 0 1 = 0 := by
    rw [mul_zero, clampQ, max_self, min_eq_left (by norm_num)]
  refine ⟨hpos, by simp [frame, hyaw], ?_⟩
  simp only [frame, hc, mixVec_zero]

/-- Claim C9: pressing both accelerator keys W and S in the same frame
cancels to net input 0 and yields exactly the same post-frame state as
pressing neither, for every state, steering combination and deltaTime. -/
theorem both_accel_keys_equal_none (trig : ℚ → ℚ × ℚ) (s : CarState)
    (a d : Bool) (dt : ℚ) :
    frame trig s ⟨true, true, a, d⟩ dt = frame trig s ⟨false, false, a, d⟩ dt := by
  have hacc : accelInput ⟨true, true, a, d⟩ = accelInput ⟨false, false, a, d⟩ := by
    norm_num [accelInput]
  have hst : steerInput ⟨true, true, a, d⟩ = steerInput ⟨false, false, a, d⟩ := rfl
  simp only [frame, frameHit, frameTentative, frameForward, frameYaw,
    frameSpeedPre, hacc, hst]

/-- Claim C10: the heading update is applied unconditionally, before the
collision check, using the sign of the updated speed (+1 at speed 0); a
frame whose move is rejected still turns by the full steering amount
while its position stays fixed. -/
theorem heading_turns_even_when_rejected (trig : ℚ → ℚ × ℚ) (s : CarState)
    (inp : InputSnapshot) (dt : ℚ) :
    (frame trig s inp dt).carYaw =
      s.carYaw + steerInput inp *
        (TURN_SPEED * turnSign (frameSpeedPre s inp dt) * dt) ∧
    (frameHit trig s inp dt = true →
      (frame trig s inp dt).carPos = s.carPos) := by
  constructor
  · simp [frame, frameYaw, updateYaw]
  · intro h; simp [frame, h]

/-- Witness for C10: steering left for one second while parked inside the
wall: the move is rejected, the position is kept, yet the heading has
advanced by the full 90 degrees. -/
theorem heading_turns_even_when_rejected_witness :
    (frame trig0 wallState inpA 1).carPos = wallState.carPos ∧
      (frame trig0 wallState inpA 1).carYaw = 90 := by
  have h := heading_turns_even_when_rejected trig0 wallState inpA 1
  have hhit : frameHit trig0 wallState inpA 1 = true := by
    norm_num [frameHit, frameTentative, frameForward, frameYaw, frameSpeedPre,
      updateSpeed, speedRegime, snapSmall, clampTop, clampBottom, updateYaw,
      turnSign, forwardVec, trig0, accelInput, steerInput, checkCollision,
      Vec3.add, Vec3.scale, wallState, inpA, carSize, wallPos, wallSize,
      MAX_SPEED, ACCELERATION, BRAKE, FRICTION, TURN_SPEED, abs]
  refine ⟨h.2 hhit, ?_⟩
  rw [h.1]
  norm_num [wallState, inpA, steerInput, TURN_SPEED, turnSign, frameSpeedPre,
    updateSpeed, speedRegime, snapSmall, clampTop, clampBottom,
    accelInput, MAX_SPEED, abs]

/-- Sustained-forward induction: along a collision-free run with forward
input whose frames are each at least 1/2000 s long, the speed follows the
closed form min(MAX_SPEED, ACCELERATION * elapsed). -/
theorem runFrames_forward_speed (dts : List ℚ) :
    ∀ (trig : ℚ → ℚ × ℚ) (s : CarState) (inp : InputSnapshot) (T : ℚ),
      inp.keyW = true → inp.keyS = false → 0 ≤ T →
      s.carSpeed = min MAX_SPEED (ACCELERATION * T) →
      (∀ dt ∈ dts, (1/2000 : ℚ) ≤ dt) →
      collisionFreeB trig s inp dts = true →
      (runFrames trig s inp dts).carSpeed
        = min MAX_SPEED (ACCELERATION * (T + dts.sum)) := by
  induction dts with
  | nil =>
    intro trig s inp T hW hS hT hsp hmem hfree
    simpa [runFrames] using hsp
  | cons dt rest ih =>
    intro trig s inp T hW hS hT hsp hmem hfree
    simp only [collisionFreeB, Bool.and_eq_true, Bool.not_eq_true'] at hfree
    obtain ⟨hhit, hfree2⟩ := hfree
    have hacc : accelInput inp = 1 := by simp [accelInput, hW, hS]
    have hdt : (1/2000 : ℚ) ≤ dt := hmem dt (by simp)
    have hspeed : (frame trig s inp dt).carSpeed
        = min MAX_SPEED (ACCELERATION * (T + dt)) := by
      simp only [frame, hhit, Bool.false_eq_true, if_false, frameSpeedPre, hacc, hsp]
      exact updateSpeed_forward_step T dt hT hdt
    have hrec := ih trig (frame trig s inp dt) inp (T + dt) hW hS
      (by linarith) hspeed (fun d hd => hmem d (by simp [hd])) hfree2
    simp only [runFrames, hrec, List.sum_cons]
    congr 1
    ring

/-- Claim C4 (amended): starting from speed 0 with sustained forward
input, no reverse input, no collision along the run, and every frame at
least 1/2000 s long (so the per-frame speed increment clears the 0.01
snap-to-zero threshold), the speed after total elapsed time t = sum of
the deltaTimes equals min(MAX_SPEED, ACCELERATION * t). -/
theorem sustained_forward_speed_formula (trig : ℚ → ℚ × ℚ) (s : CarState)
    (inp : InputSnapshot) (dts : List ℚ)
    (hW : inp.keyW = true) (hS : inp.keyS = false) (h0 : s.carSpeed = 0)
    (hmem : ∀ dt ∈ dts, (1/2000 : ℚ) ≤ dt)
    (hfree : collisionFreeB trig s inp dts = true) :
    (runFrames trig s inp dts).carSpeed
      = min MAX_SPEED (ACCELERATION * dts.sum) := by
  have h := runFrames_forward_speed dts trig s inp 0 hW hS le_rfl
    (by rw [h0, mul_zero, min_eq_right (by norm_num [MAX_SPEED])]) hmem hfree
  simpa using h

/-- Witness for C4 (amended): one half-second frame of forward driving
from rest in open space reaches speed min(12, 20 * 1/2) = 10. -/
theorem sustained_forward_speed_formula_witness :
    (runFrames trig0 initState inpW [1/2]).carSpeed
      = min MAX_SPEED (ACCELERATION * ([(1/2 : ℚ)].sum)) :=
  sustained_forward_speed_formula trig0 initState inpW [1/2] rfl rfl rfl
    (by intro dt hdt
        simp only [List.mem_singleton] at hdt
        rw [hdt]; norm_num)
    (by norm_num [collisionFreeB, frame, frameHit, frameTentative,
      frameForward, frameYaw, frameSpeedPre, updateSpeed, speedRegime,
      snapSmall, clampTop, clampBottom, updateYaw, turnSign, forwardVec,
      trig0, accelInput, steerInput, checkCollision, Vec3.add, Vec3.scale,
      initState, inpW, carSize, wallPos, wallSize, MAX_SPEED, ACCELERATION,
      BRAKE, FRICTION, TURN_SPEED, abs])

/-- Counterexample for C4 as stated: one sustained-forward, collision-free
frame of positive length 1/4000 s ends with speed 0, because the increment
ACCELERATION * 1/4000 = 0.005 is snapped to zero by the 0.01 clamp; the
claimed value min(MAX_SPEED, ACCELERATION * t) = 1/200 is not reached. -/
theorem sustained_forward_tiny_dt_cex :
    (0 : ℚ) < 1/4000 ∧
    collisionFreeB trig0 initState inpW [1/4000] = true ∧
    (runFrames trig0 initState inpW [1/4000]).carSpeed = 0 ∧
    min MAX_SPEED (ACCELERATION * ([(1/4000 : ℚ)].sum)) ≠ 0 := by
  refine ⟨by norm_num, ?_, ?_, ?_⟩
  · norm_num [collisionFreeB, frame, frameHit, frameTentative,
      frameForward, frameYaw, frameSpeedPre, updateSpeed, speedRegime,
      snapSmall, clampTop, clampBottom, updateYaw, turnSign, forwardVec,
      trig0, accelInput, steerInput, checkCollision, Vec3.add, Vec3.scale,
      initState, inpW, carSize, wallPos, wallSize, MAX_SPEED, ACCELERATION,
      BRAKE, FRICTION, TURN_SPEED, abs]
  · norm_num [runFrames, collisionFreeB, frame, frameHit, frameTentative,
      frameForward, frameYaw, frameSpeedPre, updateSpeed, speedRegime,
      snapSmall, clampTop, clampBottom, updateYaw, turnSign, forwardVec,
      trig0, accelInput, steerInput, checkCollision, Vec3.add, Vec3.scale,
      initState, inpW, carSize, wallPos, wallSize, MAX_SPEED, ACCELERATION,
      BRAKE, FRICTION, TURN_SPEED, abs]
  · norm_num [MAX_SPEED, ACCELERATION]
